import Mathlib

/-!
Verification of the QMS single-page application (`QMS_app.py`).

The development shallow-embeds the pure content of the program:

* `generate_record_id` mirrors the Python function of the same name
  (lines 49-69), with the current date passed explicitly (the source reads
  `datetime.now()`), the sheet contents passed as a `List (List String)`
  (the source reads them through `get_sheet_values`, a plain
  `sheet.get_all_values()` call), and `Option` used for the uncaught
  `ValueError` that `int(...)` raises on a non-numeric serial segment.
* Python string primitives used by the source (`str.startswith`,
  `str.split("-")[-1]`, `int(...)`, truthiness of strings, `or`,
  `f"{n:03d}"`) are modelled as executable functions on `List Char`
  (`pyStartswith`, `lastDashSeg`, `pyInt`, `pyTruthy`, `pyOr`, `py03d`).
  `pyInt` omits Python's underscore digit grouping, which cannot occur in
  the IDs this program writes.
* Each Streamlit tab body is one pure function from the inputs of a script
  run (current date, timestamp string, sheet contents, widget values,
  whether the submit button reported a click) to the side effects the run
  performs, recorded as an explicit event trace, plus the updated sheet
  and the rendered message.  The Drive service's `files().create` id
  assignment is an abstract parameter `createId`.
-/

namespace QMS

/-- The current calendar date as far as the program observes it:
`datetime.now()` followed by `strftime("%m")` / `strftime("%y")`. -/
structure Date where
  month : Nat
  year : Nat

/-- Left-pad a string with zeros to the given width (no-op when already
wide enough), as Python's zero-padded format specifications do. -/
def padZeros (w : Nat) (s : String) : String :=
  if s.length < w then String.mk (List.replicate (w - s.length) '0') ++ s else s

/-- Python `today.strftime("%m")`: the month, zero-padded to two digits. -/
def strftime_m (d : Date) : String := padZeros 2 (toString d.month)

/-- Python `today.strftime("%y")`: the year modulo 100, two digits. -/
def strftime_y (d : Date) : String := padZeros 2 (toString (d.year % 100))

/-- Python truthiness of a string: non-empty strings are truthy. -/
def pyTruthy (s : String) : Bool := !s.isEmpty

/-- Python `s or t` for strings: `s` when truthy, else `t`. -/
def pyOr (s t : String) : String := if pyTruthy s then s else t

/-- Python `s.startswith(p)`: character-wise prefix test. -/
def pyStartswith (s p : String) : Bool := p.data.isPrefixOf s.data

/-- Python `s.split("-")[-1]`: the suffix of `s` after its last `'-'`
(the whole string when `s` contains no `'-'`). -/
def lastDashSeg (s : String) : String :=
  String.mk ((s.data.reverse.takeWhile (fun c => c ≠ '-')).reverse)

/-- Numeric value of a list of decimal digit characters. -/
def digitsVal (cs : List Char) : Nat :=
  cs.foldl (fun a c => a * 10 + (c.toNat - 48)) 0

/-- Strip leading and trailing whitespace, as `int(...)` does before
parsing. -/
def pyStrip (cs : List Char) : List Char :=
  ((cs.dropWhile Char.isWhitespace).reverse.dropWhile Char.isWhitespace).reverse

/-- Python `int(s)` on a decimal string: strips whitespace, accepts one
optional sign, then requires a non-empty run of digits; `none` models the
`ValueError` raised otherwise. -/
def pyInt (s : String) : Option Int :=
  match pyStrip s.data with
  | [] => none
  | c :: rest =>
    let digits := if c = '-' ∨ c = '+' then rest else c :: rest
    let sign : Int := if c = '-' then -1 else 1
    if digits ≠ [] ∧ digits.all Char.isDigit = true then
      some (sign * (digitsVal digits : Int))
    else none

/-- Python `f"{i:03d}"`: zero-pad to total width 3, sign leading. -/
def py03d (i : Int) : String :=
  if i < 0 then "-" ++ padZeros 2 (toString i.natAbs)
  else padZeros 3 (toString i.natAbs)

/-- Lines 60-61 of the source: the ID field of the last row, taken from
the second column, `""` when the last row has fewer than two columns. -/
def lastIdOf (cached_values : List (List String)) : String :=
  (cached_values.getLastD []).getD 1 ""

/-- Lines 49-69 of the source: `generate_record_id(sheet, prefix)`.
The sheet read (`get_sheet_values`) is the `cached_values` argument and
the current date is the `today` argument; `none` is the uncaught
`ValueError` from `int(...)` on an unparseable serial segment. -/
def generate_record_id (today : Date) (cached_values : List (List String))
    (pref : String) : Option String :=
  let month := strftime_m today
  let year := strftime_y today
  if cached_values.length < 2 then
    some (pref ++ "-" ++ month ++ year ++ "-001")
  else
    let last_id := lastIdOf cached_values
    if pyStartswith last_id (pref ++ "-" ++ month ++ year) then
      match pyInt (lastDashSeg last_id) with
      | some last_serial =>
          some (pref ++ "-" ++ month ++ year ++ "-" ++ py03d (last_serial + 1))
      | none => none
    else
      some (pref ++ "-" ++ month ++ year ++ "-" ++ py03d 1)

/-- A file handed to the uploader widget; the program only ever uses its
name (and passes its content and MIME type through opaquely). -/
structure UploadedFile where
  name : String

/-- Lines 30-41 of the source: `upload_to_drive(uploaded_file, filename)`.
The Drive-assigned file id (`files().create(...).execute()["id"]`) is the
abstract assignment `createId`; the returned URL is built from it. -/
def upload_to_drive (createId : String → String) (filename : String) : String :=
  "https://drive.google.com/file/d/" ++ createId filename ++ "/view"

/-- One observable remote call performed during a script run. -/
inductive SideEffect
  | readTable (table : String) (values : List (List String))
  | upload (filename : String) (url : String)
  | appendRow (table : String) (row : List String)
  deriving DecidableEq

/-- What a tab renders after the submit button area. -/
inductive UiMsg
  | success (id : String) (file_url : String)
  | missingFields
  | noSubmit
  deriving DecidableEq

/-- Outcome of one script run of a tab: the remote calls in order, the
sheet contents afterwards, and the rendered message. -/
structure TabResult where
  events : List SideEffect
  sheet : List (List String)
  message : UiMsg
  deriving DecidableEq

/-- Lines 76-99 of the source: the Complaints tab body for one script run.
`generate_record_id` runs at render time, reading the sheet; the submit
branch validates `product and details and contact_number`, uploads when a
file is attached, and appends the row.  `none` is the crash of the run
when the ID generator raises. -/
def complaintsTab (today : Date) (ts : String) (sheet : List (List String))
    (form_product form_severity form_contact_number form_details
      form_submitted_by : String) (uploaded_file : Option UploadedFile)
    (createId : String → String) (submitClicked : Bool) : Option TabResult :=
  match generate_record_id today sheet "C" with
  | none => none
  | some complaint_id =>
    let readEv : List SideEffect := [.readTable "Complaints" sheet]
    if submitClicked then
      if pyTruthy form_product && pyTruthy form_details &&
          pyTruthy form_contact_number then
        let fileStep : List SideEffect × String :=
          match uploaded_file with
          | some f =>
              let fn := complaint_id ++ "_" ++ f.name
              ([.upload fn (upload_to_drive createId fn)],
                upload_to_drive createId fn)
          | none => ([], "")
        let new_data := [ts, complaint_id, form_product, form_severity,
          form_contact_number, form_details, pyOr form_submitted_by "",
          fileStep.2]
        some ⟨readEv ++ fileStep.1 ++ [.appendRow "Complaints" new_data],
          sheet ++ [new_data], .success complaint_id fileStep.2⟩
      else
        some ⟨readEv, sheet, .missingFields⟩
    else
      some ⟨readEv, sheet, .noSubmit⟩

/-- Lines 102-124 of the source: the Deviation tab body for one script
run, validating `department and deviation_description and reported_by`. -/
def deviationTab (today : Date) (ts : String) (sheet : List (List String))
    (form_department form_deviation_type form_deviation_description
      form_reported_by : String) (uploaded_file : Option UploadedFile)
    (createId : String → String) (submitClicked : Bool) : Option TabResult :=
  match generate_record_id today sheet "D" with
  | none => none
  | some deviation_id =>
    let readEv : List SideEffect := [.readTable "Deviation" sheet]
    if submitClicked then
      if pyTruthy form_department && pyTruthy form_deviation_description &&
          pyTruthy form_reported_by then
        let fileStep : List SideEffect × String :=
          match uploaded_file with
          | some f =>
              let fn := deviation_id ++ "_" ++ f.name
              ([.upload fn (upload_to_drive createId fn)],
                upload_to_drive createId fn)
          | none => ([], "")
        let new_data := [ts, deviation_id, form_department,
          form_deviation_type, form_deviation_description, form_reported_by,
          fileStep.2]
        some ⟨readEv ++ fileStep.1 ++ [.appendRow "Deviation" new_data],
          sheet ++ [new_data], .success deviation_id fileStep.2⟩
      else
        some ⟨readEv, sheet, .missingFields⟩
    else
      some ⟨readEv, sheet, .noSubmit⟩

/-- Lines 127-149 of the source: the Change Control tab body for one
script run, validating
`change_type and justification and impact_analysis and requested_by`. -/
def changeControlTab (today : Date) (ts : String) (sheet : List (List String))
    (form_change_type form_justification form_impact_analysis
      form_requested_by : String) (uploaded_file : Option UploadedFile)
    (createId : String → String) (submitClicked : Bool) : Option TabResult :=
  match generate_record_id today sheet "CC" with
  | none => none
  | some change_id =>
    let readEv : List SideEffect := [.readTable "Change Control" sheet]
    if submitClicked then
      if pyTruthy form_change_type && pyTruthy form_justification &&
          pyTruthy form_impact_analysis && pyTruthy form_requested_by then
        let fileStep : List SideEffect × String :=
          match uploaded_file with
          | some f =>
              let fn := change_id ++ "_" ++ f.name
              ([.upload fn (upload_to_drive createId fn)],
                upload_to_drive createId fn)
          | none => ([], "")
        let new_data := [ts, change_id, form_change_type, form_justification,
          form_impact_analysis, form_requested_by, fileStep.2]
        some ⟨readEv ++ fileStep.1 ++ [.appendRow "Change Control" new_data],
          sheet ++ [new_data], .success change_id fileStep.2⟩
      else
        some ⟨readEv, sheet, .missingFields⟩
    else
      some ⟨readEv, sheet, .noSubmit⟩

/-- The attachment URL column of an appended row: the last column in all
three row schemas. -/
def attachmentUrlOf (row : List String) : String := row.getLastD ""

/-- Outcome of one script run of the admin tab. -/
inductive AdminOutcome
  | idle
  | denied
  | granted (sheet_data : List (String × List (List String)))
  deriving DecidableEq

/-- Lines 152-170 of the source: the Admin View tab for one script run.
Only when the entered password equals the hardcoded `"admin123"` does the
tab fetch and render the sheets (`granted` carries the fetched data);
otherwise it renders the access-denied error and reads nothing. -/
def admin_tab (sheets : List (String × List (List String)))
    (admin_password : String) (accessClicked : Bool) : AdminOutcome :=
  if accessClicked then
    if admin_password = "admin123" then .granted sheets
    else .denied
  else .idle

/-! ## Sanity checks on concrete inputs -/

example : generate_record_id ⟨2, 2026⟩ [["h"], ["x", "C-0226-005"]] "C"
    = some "C-0226-006" := by decide

example : generate_record_id ⟨2, 2026⟩ [["h"], ["x", "C-0126-007"]] "C"
    = some "C-0226-001" := by decide

example : generate_record_id ⟨2, 2026⟩ [["h"]] "C" = some "C-0226-001" := by
  decide

example : generate_record_id ⟨2, 2026⟩ [["h"], ["x", "C-0226-abc"]] "C"
    = none := by decide

example : generate_record_id ⟨12, 2025⟩ [] "CC" = some "CC-1225-001" := by
  decide

example : generate_record_id ⟨2, 2026⟩ [["h"], ["solo"]] "C"
    = some "C-0226-001" := by decide

example :
    complaintsTab ⟨2, 2026⟩ "2026-02-10 09:00:00" [["h"]]
      "Aspirin" "Low" "555-1234" "bottle cracked" "" none
      (fun _ => "FID") true
    = some ⟨[.readTable "Complaints" [["h"]],
        .appendRow "Complaints"
          ["2026-02-10 09:00:00", "C-0226-001", "Aspirin", "Low",
            "555-1234", "bottle cracked", "", ""]],
        [["h"],
          ["2026-02-10 09:00:00", "C-0226-001", "Aspirin", "Low",
            "555-1234", "bottle cracked", "", ""]],
        .success "C-0226-001" ""⟩ := by decide

example :
    complaintsTab ⟨2, 2026⟩ "ts" [["h"]] "" "Low" "c" "d" "" none
      (fun _ => "FID") true
    = some ⟨[.readTable "Complaints" [["h"]]], [["h"]], .missingFields⟩ := by
  decide

example :
    admin_tab [("Complaints", [["h"]])] "wrong" true = .denied := by decide

/-! ## Helper lemmas -/

theorem digit_not_whitespace {c : Char} (h : c.isDigit = true) :
    c.isWhitespace = false := by
  simp [Char.isDigit] at h
  have hs : c ≠ ' ' := by rintro rfl; simp at h
  have ht : c ≠ '\t' := by rintro rfl; simp at h
  have hn : c ≠ '\n' := by rintro rfl; simp at h
  have hr : c ≠ '\r' := by rintro rfl; simp at h
  simp [Char.isWhitespace, hs, ht, hn, hr]

theorem digit_ne_dash {c : Char} (h : c.isDigit = true) : ¬ c = '-' := by
  rintro rfl; simp [Char.isDigit] at h

theorem digit_ne_plus {c : Char} (h : c.isDigit = true) : ¬ c = '+' := by
  rintro rfl; simp [Char.isDigit] at h

theorem dropWhile_ws_of_digits {cs : List Char}
    (h : ∀ c ∈ cs, c.isDigit = true) :
    cs.dropWhile Char.isWhitespace = cs := by
  cases cs with
  | nil => rfl
  | cons a l =>
      simp [List.dropWhile_cons, digit_not_whitespace (h a (by simp))]

theorem pyStrip_of_digits {cs : List Char} (h : ∀ c ∈ cs, c.isDigit = true) :
    pyStrip cs = cs := by
  unfold pyStrip
  rw [dropWhile_ws_of_digits h,
    dropWhile_ws_of_digits (fun c hc => h c (List.mem_reverse.mp hc)),
    List.reverse_reverse]

theorem pyInt_of_digits {s : String} (hne : s.data ≠ [])
    (hd : s.data.all Char.isDigit = true) :
    pyInt s = some ((digitsVal s.data : Nat) : Int) := by
  have hd' : ∀ c ∈ s.data, c.isDigit = true := List.all_eq_true.mp hd
  obtain ⟨c, rest, hcr⟩ : ∃ c rest, s.data = c :: rest := by
    cases hx : s.data with
    | nil => exact absurd hx hne
    | cons c rest => exact ⟨c, rest, rfl⟩
  have hc : c.isDigit = true := hd' c (by rw [hcr]; simp)
  unfold pyInt
  rw [pyStrip_of_digits hd', hcr]
  simp only
  have h1 : ¬ (c = '-' ∨ c = '+') := by
    push_neg
    exact ⟨digit_ne_dash hc, digit_ne_plus hc⟩
  simp only [if_neg h1, if_neg (digit_ne_dash hc)]
  rw [if_pos ⟨List.cons_ne_nil c rest, by rw [← hcr]; exact hd⟩, one_mul]

theorem mem_of_mem_pyStrip {cs : List Char} {c : Char}
    (h : c ∈ pyStrip cs) : c ∈ cs := by
  unfold pyStrip at h
  exact (List.dropWhile_sublist _).subset
    (List.mem_reverse.mp
      ((List.dropWhile_sublist _).subset (List.mem_reverse.mp h)))

theorem pyInt_nonneg {s : String} {i : Int} (hs : '-' ∉ s.data)
    (h : pyInt s = some i) : 0 ≤ i := by
  unfold pyInt at h
  cases hps : pyStrip s.data with
  | nil => rw [hps] at h; cases h
  | cons c rest =>
      rw [hps] at h
      have hcs : c ∈ s.data := mem_of_mem_pyStrip (by rw [hps]; simp)
      have hcd : ¬ c = '-' := fun hh => hs (hh ▸ hcs)
      simp only at h
      rw [if_neg hcd] at h
      by_cases hcond :
          (if c = '-' ∨ c = '+' then rest else c :: rest) ≠ [] ∧
            (if c = '-' ∨ c = '+' then rest else c :: rest).all
              Char.isDigit = true
      · rw [if_pos hcond] at h
        injection h with h
        rw [← h, one_mul]
        exact Int.natCast_nonneg _
      · rw [if_neg hcond] at h
        cases h

theorem no_dash_lastDashSeg (s : String) : '-' ∉ (lastDashSeg s).data := by
  intro h
  unfold lastDashSeg at h
  have h2 := List.mem_takeWhile_imp (List.mem_reverse.mp h)
  simp at h2

theorem pyStartswith_append (a b : String) :
    pyStartswith (a ++ b) a = true := by
  unfold pyStartswith
  rw [String.data_append]
  exact List.isPrefixOf_iff_prefix.mpr (List.prefix_append _ _)

theorem py03d_natCast (n : Nat) : py03d (n : Int) = padZeros 3 (toString n) := by
  unfold py03d
  rw [if_neg (by omega)]
  norm_num

theorem dash001 (a : String) : a ++ "-" ++ "001" = a ++ "-001" := by
  rw [String.append_assoc]
  congr 1

theorem pyTruthy_empty : pyTruthy "" = false := by decide

theorem gen_not_matching (today : Date)
    (cached_values : List (List String)) (pref : String)
    (h2 : 2 ≤ cached_values.length)
    (hstart : pyStartswith (lastIdOf cached_values)
      (pref ++ "-" ++ strftime_m today ++ strftime_y today) = false) :
    generate_record_id today cached_values pref
      = some (pref ++ "-" ++ strftime_m today ++ strftime_y today
          ++ "-001") := by
  simp only [generate_record_id]
  rw [if_neg (by omega), if_neg (by simp [hstart])]
  rw [show py03d 1 = "001" by decide, dash001]

/-! ## Claims about the record ID generator -/

/-- C1: for every table whose last data row's ID field starts with the
current prefix+month+year segment and ends in a numeric serial `N`,
`generate_record_id` returns exactly `<prefix>-<MM><YY>-<N+1 as 3 digits>`
(zero-padded to width 3). -/
theorem C1_serial_increment (today : Date)
    (cached_values : List (List String)) (pref : String) (N : Nat)
    (h2 : 2 ≤ cached_values.length)
    (hstart : pyStartswith (lastIdOf cached_values)
      (pref ++ "-" ++ strftime_m today ++ strftime_y today) = true)
    (hne : (lastDashSeg (lastIdOf cached_values)).data ≠ [])
    (hdig : (lastDashSeg (lastIdOf cached_values)).data.all Char.isDigit
      = true)
    (hN : digitsVal (lastDashSeg (lastIdOf cached_values)).data = N) :
    generate_record_id today cached_values pref
      = some (pref ++ "-" ++ strftime_m today ++ strftime_y today ++ "-"
          ++ padZeros 3 (toString (N + 1))) := by
  simp only [generate_record_id]
  rw [if_neg (by omega), if_pos hstart, pyInt_of_digits hne hdig, hN]
  simp only
  have hcast : ((N : Int) + 1) = ((N + 1 : Nat) : Int) := by push_cast; ring
  rw [hcast, py03d_natCast]

/-- C1 witness: a concrete sheet whose last ID is `C-0226-005` in month
02/26 yields `C-0226-006`. -/
theorem C1_serial_increment_witness :
    generate_record_id ⟨2, 2026⟩ [["h"], ["x", "C-0226-005"]] "C"
      = some ("C" ++ "-" ++ strftime_m ⟨2, 2026⟩ ++ strftime_y ⟨2, 2026⟩
          ++ "-" ++ padZeros 3 (toString (5 + 1))) :=
  C1_serial_increment ⟨2, 2026⟩ [["h"], ["x", "C-0226-005"]] "C" 5
    (by decide) (by decide) (by decide) (by decide) (by decide)

/-- C2: for every table whose last data row's ID field does not start with
the current prefix+month+year segment, `generate_record_id` returns serial
`001` for the current month/year and never fails. -/
theorem C2_restart_serial (today : Date)
    (cached_values : List (List String)) (pref : String)
    (h2 : 2 ≤ cached_values.length)
    (hstart : pyStartswith (lastIdOf cached_values)
      (pref ++ "-" ++ strftime_m today ++ strftime_y today) = false) :
    generate_record_id today cached_values pref
      = some (pref ++ "-" ++ strftime_m today ++ strftime_y today
          ++ "-001") :=
  gen_not_matching today cached_values pref h2 hstart

/-- C2 witness: a concrete sheet whose last ID is from month 01/26, read
in month 02/26, yields `C-0226-001`. -/
theorem C2_restart_serial_witness :
    generate_record_id ⟨2, 2026⟩ [["h"], ["x", "C-0126-007"]] "C"
      = some ("C" ++ "-" ++ strftime_m ⟨2, 2026⟩ ++ strftime_y ⟨2, 2026⟩
          ++ "-001") :=
  C2_restart_serial ⟨2, 2026⟩ [["h"], ["x", "C-0126-007"]] "C"
    (by decide) (by decide)

/-- C3: for every table with no data rows (only a header row, or entirely
empty), `generate_record_id` returns `<prefix>-<MM><YY>-001` for the
current month/year. -/
theorem C3_header_only (today : Date) (cached_values : List (List String))
    (pref : String) (h : cached_values.length < 2) :
    generate_record_id today cached_values pref
      = some (pref ++ "-" ++ strftime_m today ++ strftime_y today
          ++ "-001") := by
  simp only [generate_record_id]
  rw [if_pos h]

/-- C3 witness: a header-only Complaints sheet in month 02/26 yields
`C-0226-001`. -/
theorem C3_header_only_witness :
    generate_record_id ⟨2, 2026⟩ [["h"]] "C"
      = some ("C" ++ "-" ++ strftime_m ⟨2, 2026⟩ ++ strftime_y ⟨2, 2026⟩
          ++ "-001") :=
  C3_header_only ⟨2, 2026⟩ [["h"]] "C" (by decide)

/-- C9: for every table whose last data row has fewer than two columns,
`generate_record_id` does not fail: the missing ID field is read as `""`,
treated as non-matching, and serial `001` is returned for the current
month/year. -/
theorem C9_short_last_row (today : Date)
    (cached_values : List (List String)) (pref : String)
    (h2 : 2 ≤ cached_values.length)
    (hshort : (cached_values.getLastD []).length < 2) :
    generate_record_id today cached_values pref
      = some (pref ++ "-" ++ strftime_m today ++ strftime_y today
          ++ "-001") := by
  have hid : lastIdOf cached_values = "" := by
    unfold lastIdOf
    exact List.getD_eq_default _ _ (by omega)
  have hsw : pyStartswith (lastIdOf cached_values)
      (pref ++ "-" ++ strftime_m today ++ strftime_y today) = false := by
    rw [hid]
    unfold pyStartswith
    cases hd : (pref ++ "-" ++ strftime_m today ++ strftime_y today).data with
    | nil =>
        exfalso
        have hm : '-' ∈
            (pref ++ "-" ++ strftime_m today ++ strftime_y today).data := by
          simp [String.data_append]
        rw [hd] at hm
        cases hm
    | cons a l => rfl
  exact gen_not_matching today cached_values pref h2 hsw

/-- C9 witness: a concrete sheet whose last row is the single cell
`["solo"]` yields `C-0226-001` in month 02/26. -/
theorem C9_short_last_row_witness :
    generate_record_id ⟨2, 2026⟩ [["h"], ["solo"]] "C"
      = some ("C" ++ "-" ++ strftime_m ⟨2, 2026⟩ ++ strftime_y ⟨2, 2026⟩
          ++ "-001") :=
  C9_short_last_row ⟨2, 2026⟩ [["h"], ["solo"]] "C" (by decide) (by decide)

/-- C10: whenever `generate_record_id` returns normally, its result begins
with `<prefix>-<MM><YY>-` for the current month and year and its trailing
serial is at least 1, for every table contents and every prefix. -/
theorem C10_id_shape (today : Date) (cached_values : List (List String))
    (pref r : String)
    (h : generate_record_id today cached_values pref = some r) :
    pyStartswith r
      (pref ++ "-" ++ strftime_m today ++ strftime_y today ++ "-") = true ∧
    ∃ k : Nat, 1 ≤ k ∧
      r = pref ++ "-" ++ strftime_m today ++ strftime_y today ++ "-"
        ++ py03d (k : Int) := by
  have hmain : ∃ k : Nat, 1 ≤ k ∧
      r = pref ++ "-" ++ strftime_m today ++ strftime_y today ++ "-"
        ++ py03d (k : Int) := by
    simp only [generate_record_id] at h
    by_cases hlen : cached_values.length < 2
    · rw [if_pos hlen] at h
      injection h with h
      refine ⟨1, le_refl 1, ?_⟩
      rw [← h, show py03d ((1 : Nat) : Int) = "001" by decide, dash001]
    · rw [if_neg hlen] at h
      by_cases hsw : pyStartswith (lastIdOf cached_values)
          (pref ++ "-" ++ strftime_m today ++ strftime_y today) = true
      · rw [if_pos hsw] at h
        cases hint : pyInt (lastDashSeg (lastIdOf cached_values)) with
        | none =>
            rw [hint] at h
            exact absurd h (by simp)
        | some ls =>
            rw [hint] at h
            injection h with h
            have hnn : 0 ≤ ls :=
              pyInt_nonneg (no_dash_lastDashSeg _) hint
            refine ⟨(ls + 1).toNat, by omega, ?_⟩
            rw [← h]
            congr 2
            omega
      · rw [if_neg hsw] at h
        injection h with h
        refine ⟨1, le_refl 1, ?_⟩
        rw [← h]
        congr 2
  refine ⟨?_, hmain⟩
  obtain ⟨k, _, hr⟩ := hmain
  rw [hr]
  exact pyStartswith_append _ _

/-- C10 witness: on a concrete sheet the returned ID `C-0226-006` begins
with `C-0226-` and carries serial 6. -/
theorem C10_id_shape_witness :
    pyStartswith "C-0226-006"
      ("C" ++ "-" ++ strftime_m ⟨2, 2026⟩ ++ strftime_y ⟨2, 2026⟩ ++ "-")
      = true ∧
    ∃ k : Nat, 1 ≤ k ∧
      "C-0226-006" = "C" ++ "-" ++ strftime_m ⟨2, 2026⟩
        ++ strftime_y ⟨2, 2026⟩ ++ "-" ++ py03d (k : Int) :=
  C10_id_shape ⟨2, 2026⟩ [["h"], ["x", "C-0226-005"]] "C" "C-0226-006"
    (by decide)

theorem complaintsTab_valid_file (today : Date) (ts : String)
    (sheet : List (List String)) (p sv cn dt sb : String) (f : UploadedFile)
    (createId : String → String) (cid : String)
    (hgen : generate_record_id today sheet "C" = some cid)
    (hp : pyTruthy p = true) (hd : pyTruthy dt = true)
    (hc : pyTruthy cn = true) :
    complaintsTab today ts sheet p sv cn dt sb (some f) createId true
      = some ⟨[.readTable "Complaints" sheet,
          .upload (cid ++ "_" ++ f.name)
            (upload_to_drive createId (cid ++ "_" ++ f.name)),
          .appendRow "Complaints" [ts, cid, p, sv, cn, dt, pyOr sb "",
            upload_to_drive createId (cid ++ "_" ++ f.name)]],
        sheet ++ [[ts, cid, p, sv, cn, dt, pyOr sb "",
          upload_to_drive createId (cid ++ "_" ++ f.name)]],
        .success cid (upload_to_drive createId (cid ++ "_" ++ f.name))⟩ := by
  simp only [complaintsTab, hgen]
  simp [hp, hd, hc]

theorem complaintsTab_valid_nofile (today : Date) (ts : String)
    (sheet : List (List String)) (p sv cn dt sb : String)
    (createId : String → String) (cid : String)
    (hgen : generate_record_id today sheet "C" = some cid)
    (hp : pyTruthy p = true) (hd : pyTruthy dt = true)
    (hc : pyTruthy cn = true) :
    complaintsTab today ts sheet p sv cn dt sb none createId true
      = some ⟨[.readTable "Complaints" sheet,
          .appendRow "Complaints" [ts, cid, p, sv, cn, dt, pyOr sb "", ""]],
        sheet ++ [[ts, cid, p, sv, cn, dt, pyOr sb "", ""]],
        .success cid ""⟩ := by
  simp only [complaintsTab, hgen]
  simp [hp, hd, hc]

theorem complaintsTab_invalid (today : Date) (ts : String)
    (sheet : List (List String)) (p sv cn dt sb : String)
    (file : Option UploadedFile) (createId : String → String) (cid : String)
    (hgen : generate_record_id today sheet "C" = some cid)
    (hcond : (pyTruthy p && pyTruthy dt && pyTruthy cn) = false) :
    complaintsTab today ts sheet p sv cn dt sb file createId true
      = some ⟨[.readTable "Complaints" sheet], sheet, .missingFields⟩ := by
  simp only [complaintsTab, hgen]
  simp [hcond]

theorem deviationTab_valid_file (today : Date) (ts : String)
    (sheet : List (List String)) (dp dtp dd rb : String) (f : UploadedFile)
    (createId : String → String) (did : String)
    (hgen : generate_record_id today sheet "D" = some did)
    (hp : pyTruthy dp = true) (hd : pyTruthy dd = true)
    (hr : pyTruthy rb = true) :
    deviationTab today ts sheet dp dtp dd rb (some f) createId true
      = some ⟨[.readTable "Deviation" sheet,
          .upload (did ++ "_" ++ f.name)
            (upload_to_drive createId (did ++ "_" ++ f.name)),
          .appendRow "Deviation" [ts, did, dp, dtp, dd, rb,
            upload_to_drive createId (did ++ "_" ++ f.name)]],
        sheet ++ [[ts, did, dp, dtp, dd, rb,
          upload_to_drive createId (did ++ "_" ++ f.name)]],
        .success did (upload_to_drive createId (did ++ "_" ++ f.name))⟩ := by
  simp only [deviationTab, hgen]
  simp [hp, hd, hr]

theorem deviationTab_valid_nofile (today : Date) (ts : String)
    (sheet : List (List String)) (dp dtp dd rb : String)
    (createId : String → String) (did : String)
    (hgen : generate_record_id today sheet "D" = some did)
    (hp : pyTruthy dp = true) (hd : pyTruthy dd = true)
    (hr : pyTruthy rb = true) :
    deviationTab today ts sheet dp dtp dd rb none createId true
      = some ⟨[.readTable "Deviation" sheet,
          .appendRow "Deviation" [ts, did, dp, dtp, dd, rb, ""]],
        sheet ++ [[ts, did, dp, dtp, dd, rb, ""]],
        .success did ""⟩ := by
  simp only [deviationTab, hgen]
  simp [hp, hd, hr]

theorem deviationTab_invalid (today : Date) (ts : String)
    (sheet : List (List String)) (dp dtp dd rb : String)
    (file : Option UploadedFile) (createId : String → String) (did : String)
    (hgen : generate_record_id today sheet "D" = some did)
    (hcond : (pyTruthy dp && pyTruthy dd && pyTruthy rb) = false) :
    deviationTab today ts sheet dp dtp dd rb file createId true
      = some ⟨[.readTable "Deviation" sheet], sheet, .missingFields⟩ := by
  simp only [deviationTab, hgen]
  simp [hcond]

theorem changeControlTab_valid_file (today : Date) (ts : String)
    (sheet : List (List String)) (ct ju ia rq : String) (f : UploadedFile)
    (createId : String → String) (ccid : String)
    (hgen : generate_record_id today sheet "CC" = some ccid)
    (hct : pyTruthy ct = true) (hju : pyTruthy ju = true)
    (hia : pyTruthy ia = true) (hrq : pyTruthy rq = true) :
    changeControlTab today ts sheet ct ju ia rq (some f) createId true
      = some ⟨[.readTable "Change Control" sheet,
          .upload (ccid ++ "_" ++ f.name)
            (upload_to_drive createId (ccid ++ "_" ++ f.name)),
          .appendRow "Change Control" [ts, ccid, ct, ju, ia, rq,
            upload_to_drive createId (ccid ++ "_" ++ f.name)]],
        sheet ++ [[ts, ccid, ct, ju, ia, rq,
          upload_to_drive createId (ccid ++ "_" ++ f.name)]],
        .success ccid (upload_to_drive createId (ccid ++ "_" ++ f.name))⟩ := by
  simp only [changeControlTab, hgen]
  simp [hct, hju, hia, hrq]

theorem changeControlTab_valid_nofile (today : Date) (ts : String)
    (sheet : List (List String)) (ct ju ia rq : String)
    (createId : String → String) (ccid : String)
    (hgen : generate_record_id today sheet "CC" = some ccid)
    (hct : pyTruthy ct = true) (hju : pyTruthy ju = true)
    (hia : pyTruthy ia = true) (hrq : pyTruthy rq = true) :
    changeControlTab today ts sheet ct ju ia rq none createId true
      = some ⟨[.readTable "Change Control" sheet,
          .appendRow "Change Control" [ts, ccid, ct, ju, ia, rq, ""]],
        sheet ++ [[ts, ccid, ct, ju, ia, rq, ""]],
        .success ccid ""⟩ := by
  simp only [changeControlTab, hgen]
  simp [hct, hju, hia, hrq]

theorem changeControlTab_invalid (today : Date) (ts : String)
    (sheet : List (List String)) (ct ju ia rq : String)
    (file : Option UploadedFile) (createId : String → String) (ccid : String)
    (hgen : generate_record_id today sheet "CC" = some ccid)
    (hcond : (pyTruthy ct && pyTruthy ju && pyTruthy ia && pyTruthy rq)
      = false) :
    changeControlTab today ts sheet ct ju ia rq file createId true
      = some ⟨[.readTable "Change Control" sheet], sheet,
          .missingFields⟩ := by
  simp only [changeControlTab, hgen]
  simp [hcond]

/-! ## Claims about the form controllers and the admin panel -/


/-- C8: an admin-panel access attempt with a password different from the
fixed shared secret is denied and renders no table data; only the correct
password renders the tables. -/
theorem C8_admin_auth (sheets : List (String × List (List String)))
    (pw : String) :
    (pw ≠ "admin123" → admin_tab sheets pw true = AdminOutcome.denied) ∧
    admin_tab sheets "admin123" true = AdminOutcome.granted sheets := by
  constructor
  · intro hne
    simp [admin_tab, hne]
  · simp [admin_tab]

/-- C8 witness: the password `wrong` is denied on a concrete sheet set and
`admin123` is granted. -/
theorem C8_admin_auth_witness :
    (admin_tab [("Complaints", [["h"]])] "wrong" true
      = AdminOutcome.denied) ∧
    admin_tab [("Complaints", [["h"]])] "admin123" true
      = AdminOutcome.granted [("Complaints", [["h"]])] :=
  ⟨(C8_admin_auth [("Complaints", [["h"]])] "wrong").1 (by decide),
    (C8_admin_auth [("Complaints", [["h"]])] "admin123").2⟩

/-- C4: a submission with any required field empty yields the
missing-required-field error, appends nothing, uploads nothing, and leaves
the sheet unchanged — for each of the three record types (the only events
of the run are the render-time table read). -/
theorem C4_missing_required :
    (∀ (today : Date) (ts : String) (sheet : List (List String))
        (p sv cn dt sb : String) (file : Option UploadedFile)
        (createId : String → String) (r : TabResult),
        (p = "" ∨ dt = "" ∨ cn = "") →
        complaintsTab today ts sheet p sv cn dt sb file createId true
          = some r →
        r.message = UiMsg.missingFields ∧ r.sheet = sheet ∧
          r.events = [SideEffect.readTable "Complaints" sheet]) ∧
    (∀ (today : Date) (ts : String) (sheet : List (List String))
        (dp dtp dd rb : String) (file : Option UploadedFile)
        (createId : String → String) (r : TabResult),
        (dp = "" ∨ dd = "" ∨ rb = "") →
        deviationTab today ts sheet dp dtp dd rb file createId true
          = some r →
        r.message = UiMsg.missingFields ∧ r.sheet = sheet ∧
          r.events = [SideEffect.readTable "Deviation" sheet]) ∧
    (∀ (today : Date) (ts : String) (sheet : List (List String))
        (ct ju ia rq : String) (file : Option UploadedFile)
        (createId : String → String) (r : TabResult),
        (ct = "" ∨ ju = "" ∨ ia = "" ∨ rq = "") →
        changeControlTab today ts sheet ct ju ia rq file createId true
          = some r →
        r.message = UiMsg.missingFields ∧ r.sheet = sheet ∧
          r.events = [SideEffect.readTable "Change Control" sheet]) := by
  refine ⟨?_, ?_, ?_⟩
  · intro today ts sheet p sv cn dt sb file createId r hreq hrun
    simp only [complaintsTab] at hrun
    cases hgen : generate_record_id today sheet "C" with
    | none => rw [hgen] at hrun; cases hrun
    | some cid =>
        rw [hgen] at hrun
        have hcond : (pyTruthy p && pyTruthy dt && pyTruthy cn) = false := by
          rcases hreq with h | h | h <;> subst h <;> simp [pyTruthy_empty]
        simp only [hcond] at hrun
        simp at hrun
        rw [← hrun]
        exact ⟨rfl, rfl, rfl⟩
  · intro today ts sheet dp dtp dd rb file createId r hreq hrun
    simp only [deviationTab] at hrun
    cases hgen : generate_record_id today sheet "D" with
    | none => rw [hgen] at hrun; cases hrun
    | some did =>
        rw [hgen] at hrun
        have hcond : (pyTruthy dp && pyTruthy dd && pyTruthy rb) = false := by
          rcases hreq with h | h | h <;> subst h <;> simp [pyTruthy_empty]
        simp only [hcond] at hrun
        simp at hrun
        rw [← hrun]
        exact ⟨rfl, rfl, rfl⟩
  · intro today ts sheet ct ju ia rq file createId r hreq hrun
    simp only [changeControlTab] at hrun
    cases hgen : generate_record_id today sheet "CC" with
    | none => rw [hgen] at hrun; cases hrun
    | some ccid =>
        rw [hgen] at hrun
        have hcond : (pyTruthy ct && pyTruthy ju && pyTruthy ia &&
            pyTruthy rq) = false := by
          rcases hreq with h | h | h | h <;> subst h <;> simp [pyTruthy_empty]
        simp only [hcond] at hrun
        simp at hrun
        rw [← hrun]
        exact ⟨rfl, rfl, rfl⟩

/-- C4 witness: submitting a complaint with an empty product name on a
concrete sheet yields the validation error, no append and no upload. -/
theorem C4_missing_required_witness :
    (⟨[SideEffect.readTable "Complaints" [["h"]]], [["h"]],
        UiMsg.missingFields⟩ : TabResult).message = UiMsg.missingFields ∧
    (⟨[SideEffect.readTable "Complaints" [["h"]]], [["h"]],
        UiMsg.missingFields⟩ : TabResult).sheet = [["h"]] ∧
    (⟨[SideEffect.readTable "Complaints" [["h"]]], [["h"]],
        UiMsg.missingFields⟩ : TabResult).events
      = [SideEffect.readTable "Complaints" [["h"]]] :=
  C4_missing_required.1 ⟨2, 2026⟩ "ts" [["h"]] "" "Low" "c" "d" "" none
    (fun _ => "FID")
    ⟨[SideEffect.readTable "Complaints" [["h"]]], [["h"]],
      UiMsg.missingFields⟩
    (Or.inl rfl) (by decide)

/-- C5: a submission with all required fields non-blank and an attachment
performs exactly one upload followed by exactly one append, and the
attachment-URL column of the appended row equals the URL returned by the
upload — for each of the three record types. -/
theorem C5_with_attachment :
    (∀ (today : Date) (ts : String) (sheet : List (List String))
        (p sv cn dt sb : String) (f : UploadedFile)
        (createId : String → String) (r : TabResult),
        pyTruthy p = true → pyTruthy dt = true → pyTruthy cn = true →
        complaintsTab today ts sheet p sv cn dt sb (some f) createId true
          = some r →
        ∃ id row,
          r.events = [SideEffect.readTable "Complaints" sheet,
            SideEffect.upload (id ++ "_" ++ f.name)
              (upload_to_drive createId (id ++ "_" ++ f.name)),
            SideEffect.appendRow "Complaints" row] ∧
          attachmentUrlOf row
            = upload_to_drive createId (id ++ "_" ++ f.name)) ∧
    (∀ (today : Date) (ts : String) (sheet : List (List String))
        (dp dtp dd rb : String) (f : UploadedFile)
        (createId : String → String) (r : TabResult),
        pyTruthy dp = true → pyTruthy dd = true → pyTruthy rb = true →
        deviationTab today ts sheet dp dtp dd rb (some f) createId true
          = some r →
        ∃ id row,
          r.events = [SideEffect.readTable "Deviation" sheet,
            SideEffect.upload (id ++ "_" ++ f.name)
              (upload_to_drive createId (id ++ "_" ++ f.name)),
            SideEffect.appendRow "Deviation" row] ∧
          attachmentUrlOf row
            = upload_to_drive createId (id ++ "_" ++ f.name)) ∧
    (∀ (today : Date) (ts : String) (sheet : List (List String))
        (ct ju ia rq : String) (f : UploadedFile)
        (createId : String → String) (r : TabResult),
        pyTruthy ct = true → pyTruthy ju = true → pyTruthy ia = true →
        pyTruthy rq = true →
        changeControlTab today ts sheet ct ju ia rq (some f) createId true
          = some r →
        ∃ id row,
          r.events = [SideEffect.readTable "Change Control" sheet,
            SideEffect.upload (id ++ "_" ++ f.name)
              (upload_to_drive createId (id ++ "_" ++ f.name)),
            SideEffect.appendRow "Change Control" row] ∧
          attachmentUrlOf row
            = upload_to_drive createId (id ++ "_" ++ f.name)) := by
  refine ⟨?_, ?_, ?_⟩
  · intro today ts sheet p sv cn dt sb f createId r hp hd hc hrun
    cases hgen : generate_record_id today sheet "C" with
    | none =>
        simp only [complaintsTab, hgen] at hrun
        exact Option.noConfusion hrun
    | some cid =>
        rw [complaintsTab_valid_file today ts sheet p sv cn dt sb f createId
          cid hgen hp hd hc] at hrun
        injection hrun with hrun
        subst hrun
        exact ⟨cid, [ts, cid, p, sv, cn, dt, pyOr sb "",
          upload_to_drive createId (cid ++ "_" ++ f.name)], rfl, rfl⟩
  · intro today ts sheet dp dtp dd rb f createId r hp hd hr hrun
    cases hgen : generate_record_id today sheet "D" with
    | none =>
        simp only [deviationTab, hgen] at hrun
        exact Option.noConfusion hrun
    | some did =>
        rw [deviationTab_valid_file today ts sheet dp dtp dd rb f createId
          did hgen hp hd hr] at hrun
        injection hrun with hrun
        subst hrun
        exact ⟨did, [ts, did, dp, dtp, dd, rb,
          upload_to_drive createId (did ++ "_" ++ f.name)], rfl, rfl⟩
  · intro today ts sheet ct ju ia rq f createId r hct hju hia hrq hrun
    cases hgen : generate_record_id today sheet "CC" with
    | none =>
        simp only [changeControlTab, hgen] at hrun
        exact Option.noConfusion hrun
    | some ccid =>
        rw [changeControlTab_valid_file today ts sheet ct ju ia rq f createId
          ccid hgen hct hju hia hrq] at hrun
        injection hrun with hrun
        subst hrun
        exact ⟨ccid, [ts, ccid, ct, ju, ia, rq,
          upload_to_drive createId (ccid ++ "_" ++ f.name)], rfl, rfl⟩

/-- C5 witness: a concrete complete complaint with attachment `a.pdf` on a
header-only sheet uploads once and appends once, with matching URL. -/
theorem C5_with_attachment_witness :
    ∃ id row,
      (⟨[SideEffect.readTable "Complaints" [["h"]],
          SideEffect.upload "C-0226-001_a.pdf"
            "https://drive.google.com/file/d/FID/view",
          SideEffect.appendRow "Complaints"
            ["ts", "C-0226-001", "Aspirin", "Low", "555", "ok", "",
              "https://drive.google.com/file/d/FID/view"]],
        [["h"], ["ts", "C-0226-001", "Aspirin", "Low", "555", "ok", "",
          "https://drive.google.com/file/d/FID/view"]],
        UiMsg.success "C-0226-001"
          "https://drive.google.com/file/d/FID/view"⟩ : TabResult).events
        = [SideEffect.readTable "Complaints" [["h"]],
          SideEffect.upload (id ++ "_" ++ "a.pdf")
            (upload_to_drive (fun _ => "FID") (id ++ "_" ++ "a.pdf")),
          SideEffect.appendRow "Complaints" row] ∧
      attachmentUrlOf row
        = upload_to_drive (fun _ => "FID") (id ++ "_" ++ "a.pdf") :=
  C5_with_attachment.1 ⟨2, 2026⟩ "ts" [["h"]] "Aspirin" "Low" "555" "ok" ""
    ⟨"a.pdf"⟩ (fun _ => "FID") _ (by decide) (by decide) (by decide)
    (by decide)

/-- C6: a submission with all required fields non-blank and no attachment
appends exactly one row, whose attachment-URL column is the empty string —
for each of the three record types. -/
theorem C6_no_attachment :
    (∀ (today : Date) (ts : String) (sheet : List (List String))
        (p sv cn dt sb : String) (createId : String → String)
        (r : TabResult),
        pyTruthy p = true → pyTruthy dt = true → pyTruthy cn = true →
        complaintsTab today ts sheet p sv cn dt sb none createId true
          = some r →
        ∃ row,
          r.events = [SideEffect.readTable "Complaints" sheet,
            SideEffect.appendRow "Complaints" row] ∧
          attachmentUrlOf row = "" ∧ r.sheet = sheet ++ [row]) ∧
    (∀ (today : Date) (ts : String) (sheet : List (List String))
        (dp dtp dd rb : String) (createId : String → String)
        (r : TabResult),
        pyTruthy dp = true → pyTruthy dd = true → pyTruthy rb = true →
        deviationTab today ts sheet dp dtp dd rb none createId true
          = some r →
        ∃ row,
          r.events = [SideEffect.readTable "Deviation" sheet,
            SideEffect.appendRow "Deviation" row] ∧
          attachmentUrlOf row = "" ∧ r.sheet = sheet ++ [row]) ∧
    (∀ (today : Date) (ts : String) (sheet : List (List String))
        (ct ju ia rq : String) (createId : String → String)
        (r : TabResult),
        pyTruthy ct = true → pyTruthy ju = true → pyTruthy ia = true →
        pyTruthy rq = true →
        changeControlTab today ts sheet ct ju ia rq none createId true
          = some r →
        ∃ row,
          r.events = [SideEffect.readTable "Change Control" sheet,
            SideEffect.appendRow "Change Control" row] ∧
          attachmentUrlOf row = "" ∧ r.sheet = sheet ++ [row]) := by
  refine ⟨?_, ?_, ?_⟩
  · intro today ts sheet p sv cn dt sb createId r hp hd hc hrun
    cases hgen : generate_record_id today sheet "C" with
    | none =>
        simp only [complaintsTab, hgen] at hrun
        exact Option.noConfusion hrun
    | some cid =>
        rw [complaintsTab_valid_nofile today ts sheet p sv cn dt sb createId
          cid hgen hp hd hc] at hrun
        injection hrun with hrun
        subst hrun
        exact ⟨[ts, cid, p, sv, cn, dt, pyOr sb "", ""], rfl, rfl, rfl⟩
  · intro today ts sheet dp dtp dd rb createId r hp hd hr hrun
    cases hgen : generate_record_id today sheet "D" with
    | none =>
        simp only [deviationTab, hgen] at hrun
        exact Option.noConfusion hrun
    | some did =>
        rw [deviationTab_valid_nofile today ts sheet dp dtp dd rb createId
          did hgen hp hd hr] at hrun
        injection hrun with hrun
        subst hrun
        exact ⟨[ts, did, dp, dtp, dd, rb, ""], rfl, rfl, rfl⟩
  · intro today ts sheet ct ju ia rq createId r hct hju hia hrq hrun
    cases hgen : generate_record_id today sheet "CC" with
    | none =>
        simp only [changeControlTab, hgen] at hrun
        exact Option.noConfusion hrun
    | some ccid =>
        rw [changeControlTab_valid_nofile today ts sheet ct ju ia rq createId
          ccid hgen hct hju hia hrq] at hrun
        injection hrun with hrun
        subst hrun
        exact ⟨[ts, ccid, ct, ju, ia, rq, ""], rfl, rfl, rfl⟩

/-- C6 witness: a concrete complete complaint without attachment appends
exactly one row with an empty attachment URL. -/
theorem C6_no_attachment_witness :
    ∃ row,
      (⟨[SideEffect.readTable "Complaints" [["h"]],
          SideEffect.appendRow "Complaints"
            ["ts", "C-0226-001", "Aspirin", "Low", "555", "ok", "", ""]],
        [["h"],
          ["ts", "C-0226-001", "Aspirin", "Low", "555", "ok", "", ""]],
        UiMsg.success "C-0226-001" ""⟩ : TabResult).events
        = [SideEffect.readTable "Complaints" [["h"]],
          SideEffect.appendRow "Complaints" row] ∧
      attachmentUrlOf row = "" ∧
      (⟨[SideEffect.readTable "Complaints" [["h"]],
          SideEffect.appendRow "Complaints"
            ["ts", "C-0226-001", "Aspirin", "Low", "555", "ok", "", ""]],
        [["h"],
          ["ts", "C-0226-001", "Aspirin", "Low", "555", "ok", "", ""]],
        UiMsg.success "C-0226-001" ""⟩ : TabResult).sheet
        = [["h"]] ++ [row] :=
  C6_no_attachment.1 ⟨2, 2026⟩ "ts" [["h"]] "Aspirin" "Low" "555" "ok" ""
    (fun _ => "FID") _ (by decide) (by decide) (by decide) (by decide)

/-- C7: on any submit-time script run, the record ID written to the
appended row is the one requested from the generator at the start of that
run, reading the table as it is at the moment of submission: the run's
first event is the table read, and every appended row carries that ID in
its second column — for each of the three record types. -/
theorem C7_id_requested_at_submit :
    (∀ (today : Date) (ts : String) (sheet : List (List String))
        (p sv cn dt sb : String) (file : Option UploadedFile)
        (createId : String → String) (r : TabResult) (id0 : String),
        generate_record_id today sheet "C" = some id0 →
        complaintsTab today ts sheet p sv cn dt sb file createId true
          = some r →
        r.events.head? = some (SideEffect.readTable "Complaints" sheet) ∧
        ∀ t row, SideEffect.appendRow t row ∈ r.events →
          row.getD 1 "" = id0) ∧
    (∀ (today : Date) (ts : String) (sheet : List (List String))
        (dp dtp dd rb : String) (file : Option UploadedFile)
        (createId : String → String) (r : TabResult) (id0 : String),
        generate_record_id today sheet "D" = some id0 →
        deviationTab today ts sheet dp dtp dd rb file createId true
          = some r →
        r.events.head? = some (SideEffect.readTable "Deviation" sheet) ∧
        ∀ t row, SideEffect.appendRow t row ∈ r.events →
          row.getD 1 "" = id0) ∧
    (∀ (today : Date) (ts : String) (sheet : List (List String))
        (ct ju ia rq : String) (file : Option UploadedFile)
        (createId : String → String) (r : TabResult) (id0 : String),
        generate_record_id today sheet "CC" = some id0 →
        changeControlTab today ts sheet ct ju ia rq file createId true
          = some r →
        r.events.head?
          = some (SideEffect.readTable "Change Control" sheet) ∧
        ∀ t row, SideEffect.appendRow t row ∈ r.events →
          row.getD 1 "" = id0) := by
  refine ⟨?_, ?_, ?_⟩
  · intro today ts sheet p sv cn dt sb file createId r id0 hgen hrun
    cases hb : (pyTruthy p && pyTruthy dt && pyTruthy cn) with
    | false =>
        rw [complaintsTab_invalid today ts sheet p sv cn dt sb file createId
          id0 hgen hb] at hrun
        injection hrun with hrun
        subst hrun
        refine ⟨rfl, ?_⟩
        intro t row hmem
        simp at hmem
    | true =>
        simp only [Bool.and_eq_true] at hb
        obtain ⟨⟨hp, hd⟩, hc⟩ := hb
        cases file with
        | some f =>
            rw [complaintsTab_valid_file today ts sheet p sv cn dt sb f
              createId id0 hgen hp hd hc] at hrun
            injection hrun with hrun
            subst hrun
            refine ⟨rfl, ?_⟩
            intro t row hmem
            simp at hmem
            obtain ⟨h1, h2⟩ := hmem
            subst h2
            rfl
        | none =>
            rw [complaintsTab_valid_nofile today ts sheet p sv cn dt sb
              createId id0 hgen hp hd hc] at hrun
            injection hrun with hrun
            subst hrun
            refine ⟨rfl, ?_⟩
            intro t row hmem
            simp at hmem
            obtain ⟨h1, h2⟩ := hmem
            subst h2
            rfl
  · intro today ts sheet dp dtp dd rb file createId r id0 hgen hrun
    cases hb : (pyTruthy dp && pyTruthy dd && pyTruthy rb) with
    | false =>
        rw [deviationTab_invalid today ts sheet dp dtp dd rb file createId
          id0 hgen hb] at hrun
        injection hrun with hrun
        subst hrun
        refine ⟨rfl, ?_⟩
        intro t row hmem
        simp at hmem
    | true =>
        simp only [Bool.and_eq_true] at hb
        obtain ⟨⟨hp, hd⟩, hr⟩ := hb
        cases file with
        | some f =>
            rw [deviationTab_valid_file today ts sheet dp dtp dd rb f
              createId id0 hgen hp hd hr] at hrun
            injection hrun with hrun
            subst hrun
            refine ⟨rfl, ?_⟩
            intro t row hmem
            simp at hmem
            obtain ⟨h1, h2⟩ := hmem
            subst h2
            rfl
        | none =>
            rw [deviationTab_valid_nofile today ts sheet dp dtp dd rb
              createId id0 hgen hp hd hr] at hrun
            injection hrun with hrun
            subst hrun
            refine ⟨rfl, ?_⟩
            intro t row hmem
            simp at hmem
            obtain ⟨h1, h2⟩ := hmem
            subst h2
            rfl
  · intro today ts sheet ct ju ia rq file createId r id0 hgen hrun
    cases hb : (pyTruthy ct && pyTruthy ju && pyTruthy ia && pyTruthy rq) with
    | false =>
        rw [changeControlTab_invalid today ts sheet ct ju ia rq file createId
          id0 hgen hb] at hrun
        injection hrun with hrun
        subst hrun
        refine ⟨rfl, ?_⟩
        intro t row hmem
        simp at hmem
    | true =>
        simp only [Bool.and_eq_true] at hb
        obtain ⟨⟨⟨hct, hju⟩, hia⟩, hrq⟩ := hb
        cases file with
        | some f =>
            rw [changeControlTab_valid_file today ts sheet ct ju ia rq f
              createId id0 hgen hct hju hia hrq] at hrun
            injection hrun with hrun
            subst hrun
            refine ⟨rfl, ?_⟩
            intro t row hmem
            simp at hmem
            obtain ⟨h1, h2⟩ := hmem
            subst h2
            rfl
        | none =>
            rw [changeControlTab_valid_nofile today ts sheet ct ju ia rq
              createId id0 hgen hct hju hia hrq] at hrun
            injection hrun with hrun
            subst hrun
            refine ⟨rfl, ?_⟩
            intro t row hmem
            simp at hmem
            obtain ⟨h1, h2⟩ := hmem
            subst h2
            rfl

/-- C7 witness: on a concrete run the first event is the table read and
the appended row carries the generated ID `C-0226-001` in column 2. -/
theorem C7_id_requested_at_submit_witness :
    (⟨[SideEffect.readTable "Complaints" [["h"]],
        SideEffect.appendRow "Complaints"
          ["ts", "C-0226-001", "Aspirin", "Low", "555", "ok", "", ""]],
      [["h"], ["ts", "C-0226-001", "Aspirin", "Low", "555", "ok", "", ""]],
      UiMsg.success "C-0226-001" ""⟩ : TabResult).events.head?
      = some (SideEffect.readTable "Complaints" [["h"]]) ∧
    ["ts", "C-0226-001", "Aspirin", "Low", "555", "ok", "", ""].getD 1 ""
      = "C-0226-001" :=
  have h := C7_id_requested_at_submit.1 ⟨2, 2026⟩ "ts" [["h"]] "Aspirin"
    "Low" "555" "ok" "" none (fun _ => "FID")
    ⟨[SideEffect.readTable "Complaints" [["h"]],
        SideEffect.appendRow "Complaints"
          ["ts", "C-0226-001", "Aspirin", "Low", "555", "ok", "", ""]],
      [["h"], ["ts", "C-0226-001", "Aspirin", "Low", "555", "ok", "", ""]],
      UiMsg.success "C-0226-001" ""⟩ "C-0226-001" (by decide) (by decide)
  ⟨h.1, h.2 "Complaints"
    ["ts", "C-0226-001", "Aspirin", "Low", "555", "ok", "", ""]
    (by decide)⟩

end QMS

